import Mathlib

/-!
Verification development for the Kolibri app server-supervision subsystem
(`src/kolibri_app/application.py` and `src/kolibri_app/_server_process.py`).

The supervisor (`KolibriApp`) spawns a worker process, learns readiness
through a multiprocessing queue carrying a textual `READY:<port>` message,
polls liveness on a `wx.Timer`, and shuts the worker down with a
graceful-then-forceful escalation.  This file gives a shallow embedding of
that logic and proves/refutes the frozen specification claims about it.

Python strings are modelled as `List Char`.  The Python primitives the code
relies on (`str(int)` printing, `int(...)` parsing, `str.split(":")`,
`str.strip()`, `str.startswith`) are embedded as the executable functions
below.  Unicode whitespace beyond ASCII and the underscore digit-grouping
accepted by Python's `int()` are not modelled; no message the code
manipulates uses them.
-/

/-- Decimal digit characters of a natural number, most significant first,
with explicit recursion fuel so that evaluation is definitional.
`natCharsAux (n+1) n` is Python's `str(n)` for `n ≥ 0`. -/
def natCharsAux : Nat → Nat → List Char
  | 0, _ => []
  | fuel + 1, n =>
    if n < 10 then [Nat.digitChar n]
    else natCharsAux fuel (n / 10) ++ [Nat.digitChar (n % 10)]

/-- Python `str(n)` for a natural number `n`. -/
def natChars (n : Nat) : List Char := natCharsAux (n + 1) n

/-- Python `str(i)` for an integer `i` (a `-` sign followed by the digits
when negative). -/
def intChars : Int → List Char
  | .ofNat n => natChars n
  | .negSucc n => '-' :: natChars (n + 1)

/-- Accumulator loop of decimal parsing: consume digit characters,
failing on the first non-digit. -/
def charsNatCore : List Char → Nat → Option Nat
  | [], acc => some acc
  | c :: rest, acc =>
    if c.isDigit then charsNatCore rest (acc * 10 + (c.toNat - 48)) else none

/-- Parse an unsigned decimal numeral: nonempty all-digit character list. -/
def charsNat? (cs : List Char) : Option Nat :=
  match cs with
  | [] => none
  | _ :: _ => charsNatCore cs 0

/-- ASCII whitespace recognised by Python's `str.strip()`. -/
def isSpaceChar (c : Char) : Bool :=
  c = ' ' || c = '\t' || c = '\n' || c = '\r' || c = '\x0b' || c = '\x0c'

/-- Python `str.strip()`: remove leading and trailing whitespace. -/
def pyStrip (cs : List Char) : List Char :=
  ((cs.dropWhile isSpaceChar).reverse.dropWhile isSpaceChar).reverse

/-- Signed decimal parsing after stripping: an optional `-` or `+` sign
followed by a nonempty digit string, as Python's `int()` accepts. -/
def pyIntSigned : List Char → Option Int
  | [] => none
  | c :: rest =>
    if c = '-' then
      match charsNat? rest with
      | some n => some (-(n : Int))
      | none => none
    else if c = '+' then
      match charsNat? rest with
      | some n => some ((n : Int))
      | none => none
    else
      match charsNat? (c :: rest) with
      | some n => some ((n : Int))
      | none => none

/-- Python `int(s)` on a string: strip surrounding whitespace, then parse a
signed decimal numeral; `none` is Python's `ValueError`. -/
def pyIntChars? (cs : List Char) : Option Int :=
  pyIntSigned (pyStrip cs)

/-- Python `s.split(sep)` for a one-character separator: split on every
occurrence, keeping empty pieces (`"".split(":") == [""]`). -/
def splitOnChar (sep : Char) : List Char → List (List Char)
  | [] => [[]]
  | c :: rest =>
    let groups := splitOnChar sep rest
    if c = sep then [] :: groups
    else (c :: groups.headD []) :: groups.tail

/-- Python `s.startswith(p)` on character lists. -/
def beginsWith : List Char → List Char → Bool
  | [], _ => true
  | _ :: _, [] => false
  | p :: ps, c :: cs => p == c && beginsWith ps cs

-- Server monitoring constants (application.py lines 24-26).

def SERVER_STARTUP_CHECK_INTERVAL : Nat := 100
def SERVER_RUNNING_CHECK_INTERVAL : Nat := 1000
def SERVER_SHUTDOWN_TIMEOUT : Nat := 5

/-- The characters of `"READY"`. -/
def readyWord : List Char := ['R', 'E', 'A', 'D', 'Y']

/-- The characters of the readiness message tag `"READY:"`. -/
def readyTag : List Char := readyWord ++ [':']

/-- The characters of `"http://localhost:"`. -/
def localhostTag : List Char :=
  ['h', 't', 't', 'p', ':', '/', '/', 'l', 'o', 'c', 'a', 'l', 'h', 'o', 's', 't', ':']

/-- The characters of the fallback stdout tag `"KOLIBRI_SERVER_READY:"`. -/
def fallbackTag : List Char :=
  ['K', 'O', 'L', 'I', 'B', 'R', 'I', '_', 'S', 'E', 'R', 'V', 'E', 'R', '_',
   'R', 'E', 'A', 'D', 'Y', ':']

/-- The worker process handle as the supervisor sees it
(`multiprocessing.Process`): pid, the `is_alive()` flag, and the exit code
observable once the process is dead (the placeholder stored at spawn is
never read while the process is alive). -/
structure Proc where
  pid : Nat
  alive : Bool
  exitcode : Int
  deriving DecidableEq

/-- A value drained from the ready queue: a Python string, or any
non-string value (Python `None` and other non-string objects fail the
`message and isinstance(message, str)` test identically). -/
inductive QMsg
  | str (s : List Char)
  | nonStr
  deriving DecidableEq

/-- Observable side effects of the supervisor: process signals, bounded
waits, user-facing dialogs, notifications, and the log lines the claims
refer to. -/
inductive Event
  | spawned (pid : Nat) (queueId : Nat)
  | loadKolibri (origin : List Char)
  | duplicateOriginIgnored (origin : List Char)
  | parseErrorLogged
  | unexpectedMessageLogged
  | startupFailureDialog (exitcode : Int)
  | unexpectedExitLogged (exitcode : Int)
  | sigTerminate (pid : Nat)
  | sigKill (pid : Nat)
  | joinWait (seconds : Nat)
  | killFailedLogged (pid : Nat)
  | processClosed (pid : Nat)
  deriving DecidableEq

/-- The mutable fields of `KolibriApp` relevant to server supervision
(application.py lines 49-53), plus channel-identity bookkeeping:
`queueId` identifies the `multiprocessing.Queue` object currently stored
in `self.server_ready_queue`, and `nextQueueId` counts the queues created
so far, making reuse of a channel across worker instances observable.
`pendingCalls` holds the ports of `wx.CallAfter(self.load_kolibri, port)`
calls scheduled during the current timer handler (line 135): the wx event
loop runs them only after the handler returns, so a handler that also
observes the worker's death acts before the deferred `load_kolibri`
does.  It is empty whenever the event loop is idle between handlers. -/
structure AppState where
  serverProcess : Option Proc
  readyQueue : List QMsg
  kolibriOrigin : Option (List Char)
  monitorTimer : Option Nat
  queueId : Nat
  nextQueueId : Nat
  pendingCalls : List Int
  deriving DecidableEq

/-- `KolibriApp.OnInit` field initialisation (lines 49-53): no process, a
freshly created ready queue — the only queue this app object ever
creates — no origin, no monitor timer.  `OnInit` then immediately calls
`start_server()`. -/
def initFields : AppState :=
  { serverProcess := none, readyQueue := [], kolibriOrigin := none,
    monitorTimer := none, queueId := 0, nextQueueId := 1, pendingCalls := [] }

/-- `KolibriApp.start_server` (lines 68-100): if a live process exists, do
nothing; otherwise spawn a worker handing it `self.server_ready_queue`
(the same queue object on every call — no new queue is created here) and
start the monitor timer at the fast interval
(`start_server_monitoring`, lines 104-116). -/
def start_server (s : AppState) (pid : Nat) : AppState × List Event :=
  match s.serverProcess with
  | some p =>
    if p.alive then (s, [])
    else
      ({ s with serverProcess := some { pid := pid, alive := true, exitcode := 0 },
                monitorTimer := some SERVER_STARTUP_CHECK_INTERVAL },
       [.spawned pid s.queueId])
  | none =>
    ({ s with serverProcess := some { pid := pid, alive := true, exitcode := 0 },
              monitorTimer := some SERVER_STARTUP_CHECK_INTERVAL },
     [.spawned pid s.queueId])

/-- `KolibriApp.load_kolibri` (lines 311-322, reduced to its
supervision-relevant behaviour): compute `http://localhost:<port>`; if it
equals the cached origin, log the repeated signal and ignore it;
otherwise cache it.  The window updates it performs are out of scope. -/
def load_kolibri (s : AppState) (listen_port : Int) : AppState × List Event :=
  let current_origin := localhostTag ++ intChars listen_port
  if s.kolibriOrigin = some current_origin then
    (s, [.duplicateOriginIgnored current_origin])
  else
    ({ s with kolibriOrigin := some current_origin }, [.loadKolibri current_origin])

/-- Classification of one drained message in `check_server_status`
(lines 124-154): a truthy string starting with `READY:` whose
`split(":")[1].strip()` parses as an int carries that port; a failing
parse (or `IndexError`) is the caught parse error; everything else is the
"unexpected message" warning branch. -/
inductive DrainResult
  | ready (port : Int)
  | parseError
  | unexpected
  deriving DecidableEq

def handleMessage (m : QMsg) : DrainResult :=
  match m with
  | .str s =>
    if s ≠ [] ∧ beginsWith readyTag s = true then
      match (splitOnChar ':' s).get? 1 with
      | some piece =>
        match pyIntChars? piece with
        | some p => .ready p
        | none => .parseError
      | none => .parseError
    else .unexpected
  | .nonStr => .unexpected

/-- Step 1 of `check_server_status` (lines 121-160): when no origin is
cached, one non-blocking `get` from the ready queue (`queue.Empty` just
means "not yet").  On a successful parse, `wx.CallAfter(self.load_kolibri,
port)` (line 135) only schedules the deferred call — the port is appended
to `pendingCalls` and `load_kolibri` itself runs after the handler
returns — while the monitor timer, if running, is restarted at the slow
interval immediately (lines 136-146). -/
def drainQueueStep (s : AppState) : AppState × List Event :=
  match s.kolibriOrigin with
  | some _ => (s, [])
  | none =>
    match s.readyQueue with
    | [] => (s, [])
    | m :: rest =>
      let s1 := { s with readyQueue := rest }
      match handleMessage m with
      | .ready port =>
        let s2 := { s1 with pendingCalls := s1.pendingCalls ++ [port] }
        let s3 :=
          if s2.monitorTimer.isSome then
            { s2 with monitorTimer := some SERVER_RUNNING_CHECK_INTERVAL }
          else s2
        (s3, [])
      | .parseError => (s1, [.parseErrorLogged])
      | .unexpected => (s1, [.unexpectedMessageLogged])

/-- Step 2 of `check_server_status` (lines 162-203): if the process
reference exists and the process is dead, stop the timer, show the
startup-failure dialog with the exit code when no origin was cached or
log the post-ready unexpected exit otherwise, then clear the process
reference and the origin (lines 170-197).  If the reference is gone but a
timer still runs, just stop the timer (lines 199-203).  The
`wx.CallAfter(wx.MessageBox, ...)` on line 182 is emitted as an event
here: its arguments are evaluated at scheduling time and it reads no
supervisor state, so its deferral affects only display timing. -/
def livenessStep (s : AppState) : AppState × List Event :=
  match s.serverProcess with
  | some p =>
    if p.alive then (s, [])
    else
      ({ s with serverProcess := none, kolibriOrigin := none, monitorTimer := none },
       if s.kolibriOrigin = none then [.startupFailureDialog p.exitcode]
       else [.unexpectedExitLogged p.exitcode])
  | none =>
    if s.monitorTimer.isSome then ({ s with monitorTimer := none }, []) else (s, [])

/-- `KolibriApp.check_server_status` (lines 118-203): one monitor tick,
queue drain then liveness check. -/
def check_server_status (s : AppState) : AppState × List Event :=
  let r1 := drainQueueStep s
  let r2 := livenessStep r1.1
  (r2.1, r1.2 ++ r2.2)

/-- Run the deferred `load_kolibri` calls scheduled with `wx.CallAfter`,
in FIFO order, once the handler has returned. -/
def runPendingCalls : List Int → AppState → AppState × List Event
  | [], s => (s, [])
  | port :: rest, s =>
    let r1 := load_kolibri s port
    let r2 := runPendingCalls rest r1.1
    (r2.1, r1.2 ++ r2.2)

/-- A `wx.EVT_TIMER` tick: `check_server_status` runs only while the
monitor timer is running; when the handler returns, the wx event loop
executes the `load_kolibri` calls it deferred with `wx.CallAfter` before
the next timer event can fire. -/
def tick (s : AppState) : AppState × List Event :=
  if s.monitorTimer.isSome then
    let r1 := check_server_status s
    let r2 := runPendingCalls r1.1.pendingCalls { r1.1 with pendingCalls := [] }
    (r2.1, r1.2 ++ r2.2)
  else (s, [])

/-- Iterate `n` monitor ticks. -/
def runTicks (s : AppState) : Nat → AppState
  | 0 => s
  | n + 1 => runTicks (tick s).1 n

/-- Environment of one `shutdown()` call: whether the worker exits within
the 5-second grace period after `terminate()`, and, failing that, whether
it is gone within the 2-second wait after `kill()`. -/
structure ShutdownEnv where
  exitsInGrace : Bool
  exitsInKill : Bool
  deriving DecidableEq

/-- `KolibriApp.shutdown` (lines 385-461): stop the monitor timer; if a
live worker exists, `terminate()` it, `join` up to
`SERVER_SHUTDOWN_TIMEOUT` seconds, and only if it is still alive `kill()`
it and `join` up to 2 more seconds, logging a failure if it survives even
that; in every branch the `finally` block closes the process object's
resources and the reference is cleared.  A dead-but-referenced process is
only closed and cleared (lines 440-455); with no reference nothing is
touched (lines 456-459).  `self.kolibri_origin` is never modified here. -/
def shutdown (s : AppState) (env : ShutdownEnv) : AppState × List Event :=
  let s0 := { s with monitorTimer := none }
  match s0.serverProcess with
  | some p =>
    if p.alive then
      let evs :=
        if env.exitsInGrace then
          [.sigTerminate p.pid, .joinWait SERVER_SHUTDOWN_TIMEOUT]
        else if env.exitsInKill then
          [.sigTerminate p.pid, .joinWait SERVER_SHUTDOWN_TIMEOUT,
           .sigKill p.pid, .joinWait 2]
        else
          [.sigTerminate p.pid, .joinWait SERVER_SHUTDOWN_TIMEOUT,
           .sigKill p.pid, .joinWait 2, .killFailedLogged p.pid]
      ({ s0 with serverProcess := none }, evs ++ [.processClosed p.pid])
    else
      ({ s0 with serverProcess := none }, [.processClosed p.pid])
  | none => (s0, [])

/-- Driver actions: a `start_server` call, the worker pushing a message
onto the ready queue (possible only while it is alive), the worker
process dying with an exit code, a monitor tick, and a `shutdown()` call
with its timing environment. -/
inductive Act
  | start (pid : Nat)
  | sends (m : QMsg)
  | dies (code : Int)
  | tickT
  | shutdownCall (env : ShutdownEnv)
  deriving DecidableEq

def stepA (s : AppState) (a : Act) : AppState × List Event :=
  match a with
  | .start pid => start_server s pid
  | .sends m =>
    match s.serverProcess with
    | some p =>
      if p.alive then ({ s with readyQueue := s.readyQueue ++ [m] }, []) else (s, [])
    | none => (s, [])
  | .dies code =>
    match s.serverProcess with
    | some p =>
      if p.alive then
        ({ s with serverProcess := some { p with alive := false, exitcode := code } }, [])
      else (s, [])
    | none => (s, [])
  | .tickT => tick s
  | .shutdownCall env => shutdown s env

/-- Final state of a run from `s` through the actions. -/
def runState (s : AppState) : List Act → AppState
  | [] => s
  | a :: rest => runState (stepA s a).1 rest

/-- All events of a run from `s` through the actions, in order. -/
def runEvents (s : AppState) : List Act → List Event
  | [] => []
  | a :: rest => (stepA s a).2 ++ runEvents (stepA s a).1 rest

/-- Code-level characterisation of the spec's `READY` supervisor state:
an origin is cached and a worker handle is held. -/
def readyStateB (s : AppState) : Bool :=
  s.kolibriOrigin.isSome && s.serverProcess.isSome

/-- The claimed invariant: the cached origin is non-absent exactly in
`READY`. -/
def originReadyInvariant (s : AppState) : Bool :=
  s.kolibriOrigin.isSome == readyStateB s

def Act.isShutdownCall : Act → Bool
  | .shutdownCall _ => true
  | _ => false

/-- Port resolution in `_server_process.main` (lines 153-173): take the
environment override if present (else `str` of the hosted application's
configured default), then `int(...)`; on `ValueError` fall back to the
default.  A parsed `0` is passed through unchanged. -/
def resolvePort (override : Option (List Char)) (defaultPort : Int) : Int :=
  let portStr := override.getD (intChars defaultPort)
  match pyIntChars? portStr with
  | some n => n
  | none => defaultPort

/-- Observable output of the worker's serving callback. -/
inductive ServeSignal
  | queuePut (msg : List Char)
  | stdoutLine (line : List Char)
  deriving DecidableEq

/-- `on_serving_callback` in `_server_process.main` (lines 185-200): with
a ready queue supplied, put exactly the message `READY:<actual_port>` on
it; without one, print the line `KOLIBRI_SERVER_READY:<actual_port>` to
standard output instead. -/
def on_serving_callback (readyQueueSupplied : Bool) (actual_port : Nat) :
    List ServeSignal :=
  if readyQueueSupplied then [.queuePut (readyTag ++ natChars actual_port)]
  else [.stdoutLine (fallbackTag ++ natChars actual_port)]



/-- Whether a drained message parses as a readiness message with a port. -/
def DrainResult.isReadyPort : DrainResult → Bool
  | .ready _ => true
  | _ => false

/-- No message still queued parses as a readiness message. -/
def noReadyQueued (q : List QMsg) : Bool :=
  q.all (fun m => !(handleMessage m).isReadyPort)

/-- Auxiliary inductive invariant: whenever an origin is cached, and
whenever the monitor timer is running, a worker handle is held; no
deferred `load_kolibri` call is pending between handlers; and a worker
observed dead either already delivered its origin or left no readiness
message waiting in the queue. -/
def AppInv (s : AppState) : Prop :=
  (s.kolibriOrigin.isSome = true → s.serverProcess.isSome = true)
  ∧ (s.monitorTimer.isSome = true → s.serverProcess.isSome = true)
  ∧ s.pendingCalls = []
  ∧ (∀ p, s.serverProcess = some p → p.alive = false →
      s.kolibriOrigin.isSome = true ∨ noReadyQueued s.readyQueue = true)

/-- The side condition of the amended C1 invariant, judged at the state
where the action fires: no `shutdown()` call, and the worker dies only
when the origin is already cached or no readiness message of its is
still waiting in the queue (otherwise the death-observing tick defers
`load_kolibri` past the cleanup and re-caches the origin). -/
def stepGuard (s : AppState) : Act → Bool
  | .shutdownCall _ => false
  | .dies _ => s.kolibriOrigin.isSome || noReadyQueued s.readyQueue
  | _ => true

/-- Whether every action of the run satisfies `stepGuard` at the state it
fires in. -/
def guardedRun : AppState → List Act → Bool
  | _, [] => true
  | s, a :: rest => stepGuard s a && guardedRun (stepA s a).1 rest

/-- Run refuting C1 via `shutdown()`: start, become ready on port 8080,
then `shutdown()` with a worker that exits within the grace period. -/
def c1acts : List Act :=
  [.start 1, .sends (.str (readyTag ++ natChars 8080)), .tickT,
   .shutdownCall ⟨true, true⟩]

/-- Run refuting C1 without any `shutdown()`: the worker sends
`READY:8080` and dies before the next tick, so the same tick drains the
message (deferring `load_kolibri`), observes the death, shows the
startup-failure dialog and clears origin/handle/timer — and then the
deferred `load_kolibri` caches the origin with no worker handle left. -/
def c1raceActs : List Act :=
  [.start 1, .sends (.str (readyTag ++ natChars 8080)), .dies 1, .tickT]

/-- Run refuting C2: start worker 1, let it die, observe the death on a
tick, then call `start_server` again spawning worker 2. -/
def c2acts : List Act :=
  [.start 1, .dies 1, .tickT, .start 2]

/-- The action sequence of C7: `start()`, a readiness message with port
`P`, one monitor tick. -/
def startActs (P : Nat) : List Act :=
  [.start 1, .sends (.str (readyTag ++ natChars P)), .tickT]

/-- Run refuting the "logged" part of C7: after becoming ready on port
8080, a second readiness message arrives and a tick runs. -/
def c7acts : List Act :=
  startActs 8080 ++ [.sends (.str (readyTag ++ natChars 9999)), .tickT]

/-- A supervisor state with a live worker (pid 1) being monitored, used to
instantiate the shutdown theorems. -/
def aliveSt : AppState :=
  { serverProcess := some ⟨1, true, 0⟩, readyQueue := [],
    kolibriOrigin := none, monitorTimer := some SERVER_STARTUP_CHECK_INTERVAL,
    queueId := 0, nextQueueId := 1, pendingCalls := [] }

/-- A monitored state whose worker died with exit code 7 before any
readiness message arrived. -/
def deadSt : AppState :=
  { serverProcess := some ⟨1, false, 7⟩, readyQueue := [],
    kolibriOrigin := none, monitorTimer := some SERVER_STARTUP_CHECK_INTERVAL,
    queueId := 0, nextQueueId := 1, pendingCalls := [] }

/-- A `READY` state (origin cached, slow monitoring) whose worker has just
died with exit code 9. -/
def readySt : AppState :=
  { serverProcess := some ⟨1, false, 9⟩, readyQueue := [],
    kolibriOrigin := some (localhostTag ++ natChars 8080),
    monitorTimer := some SERVER_RUNNING_CHECK_INTERVAL,
    queueId := 0, nextQueueId := 1, pendingCalls := [] }

/-- The state the supervisor reaches after `startActs P`: worker alive,
origin `http://localhost:P` cached, monitoring slowed to the running
interval, queue drained. -/
def readyAfter (P : Nat) : AppState :=
  { serverProcess := some ⟨1, true, 0⟩, readyQueue := [],
    kolibriOrigin := some (localhostTag ++ natChars P),
    monitorTimer := some SERVER_RUNNING_CHECK_INTERVAL,
    queueId := 0, nextQueueId := 1, pendingCalls := [] }

/-- A monitored state with a live worker and a malformed message
(`READY:x`) at the head of the ready queue. -/
def malformedSt : AppState :=
  { serverProcess := some ⟨1, true, 0⟩,
    readyQueue := [.str (readyTag ++ ['x'])],
    kolibriOrigin := none, monitorTimer := some SERVER_STARTUP_CHECK_INTERVAL,
    queueId := 0, nextQueueId := 1, pendingCalls := [] }

-- Facts about the decimal printer and parser used for round-trips.

theorem digitChar_isDigit {n : Nat} (h : n < 10) :
    (Nat.digitChar n).isDigit = true := by
  interval_cases n <;> decide

theorem digitChar_toNat {n : Nat} (h : n < 10) :
    (Nat.digitChar n).toNat - 48 = n := by
  interval_cases n <;> decide

theorem natCharsAux_ne_nil (fuel n : Nat) :
    natCharsAux (fuel + 1) n ≠ [] := by
  unfold natCharsAux
  split
  · simp
  · simp

theorem natChars_ne_nil (n : Nat) : natChars n ≠ [] :=
  natCharsAux_ne_nil n n

theorem natCharsAux_all_digit (fuel : Nat) :
    ∀ n, ∀ c ∈ natCharsAux fuel n, c.isDigit = true := by
  induction fuel with
  | zero => intro n c hc; simp [natCharsAux] at hc
  | succ fuel ih =>
    intro n c hc
    unfold natCharsAux at hc
    split at hc
    · next h =>
      simp at hc
      subst hc
      exact digitChar_isDigit h
    · next h =>
      rcases List.mem_append.1 hc with h1 | h2
      · exact ih _ _ h1
      · simp at h2
        subst h2
        exact digitChar_isDigit (Nat.mod_lt _ (by omega))

theorem natChars_all_digit (n : Nat) :
    ∀ c ∈ natChars n, c.isDigit = true :=
  natCharsAux_all_digit (n + 1) n

theorem charsNatCore_append (xs ys : List Char) (acc : Nat) :
    charsNatCore (xs ++ ys) acc =
      match charsNatCore xs acc with
      | some b => charsNatCore ys b
      | none => none := by
  induction xs generalizing acc with
  | nil => simp [charsNatCore]
  | cons c rest ih =>
    simp only [List.cons_append, charsNatCore]
    split
    · exact ih _
    · rfl

theorem charsNatCore_natCharsAux (fuel : Nat) :
    ∀ n acc, n < 10 ^ fuel →
      charsNatCore (natCharsAux fuel n) acc =
        some (acc * 10 ^ (natCharsAux fuel n).length + n) := by
  induction fuel with
  | zero =>
    intro n acc h
    simp at h
    subst h
    simp [natCharsAux, charsNatCore]
  | succ fuel ih =>
    intro n acc h
    unfold natCharsAux
    split
    · next h10 =>
      simp [charsNatCore, digitChar_isDigit h10, digitChar_toNat h10]
    · next h10 =>
      have h2 : n < 10 * 10 ^ fuel := by
        rw [pow_succ, Nat.mul_comm] at h
        exact h
      have hdiv : n / 10 < 10 ^ fuel := Nat.div_lt_of_lt_mul h2
      rw [charsNatCore_append, ih _ acc hdiv]
      have hm : n % 10 < 10 := Nat.mod_lt _ (by omega)
      simp only [charsNatCore, digitChar_isDigit hm, digitChar_toNat hm, if_true,
        List.length_append, List.length_singleton]
      congr 1
      rw [pow_succ, Nat.add_mul, Nat.mul_assoc, Nat.add_assoc]
      congr 1
      omega

theorem charsNat?_natChars (n : Nat) : charsNat? (natChars n) = some n := by
  have hne := natChars_ne_nil n
  have hlt : n < 10 ^ (n + 1) := by
    calc n < 10 ^ n := Nat.lt_pow_self (by omega) n
      _ ≤ 10 ^ (n + 1) := Nat.pow_le_pow_right (by omega) (by omega)
  have hcore := charsNatCore_natCharsAux (n + 1) n 0 hlt
  simp only [Nat.zero_mul, Nat.zero_add] at hcore
  unfold charsNat?
  split
  · next heq => exact absurd heq hne
  · next c rest heq => exact hcore

theorem dropWhile_eq_self_of_none {p : Char → Bool} {cs : List Char}
    (h : ∀ c ∈ cs, p c = false) : cs.dropWhile p = cs := by
  cases cs with
  | nil => rfl
  | cons c rest =>
    rw [List.dropWhile_cons_of_neg]
    simp [h c (by simp)]

theorem isDigit_not_space {c : Char} (h : c.isDigit = true) :
    isSpaceChar c = false := by
  cases hb : isSpaceChar c with
  | false => rfl
  | true =>
    exfalso
    have hmem := hb
    simp only [isSpaceChar, Bool.or_eq_true, decide_eq_true_eq] at hmem
    rcases hmem with ((((h1 | h1) | h1) | h1) | h1) | h1 <;>
      (subst h1; exact absurd h (by decide))

theorem pyStrip_of_no_space {cs : List Char}
    (h : ∀ c ∈ cs, isSpaceChar c = false) : pyStrip cs = cs := by
  unfold pyStrip
  rw [dropWhile_eq_self_of_none h]
  rw [dropWhile_eq_self_of_none (by intro c hc; exact h c (List.mem_reverse.1 hc))]
  exact List.reverse_reverse cs

theorem pyStrip_natChars (n : Nat) : pyStrip (natChars n) = natChars n :=
  pyStrip_of_no_space (fun c hc => isDigit_not_space (natChars_all_digit n c hc))

theorem isDigit_ne_dash {c : Char} (h : c.isDigit = true) : c ≠ '-' := by
  intro he; subst he; simp [Char.isDigit] at h

theorem isDigit_ne_plus {c : Char} (h : c.isDigit = true) : c ≠ '+' := by
  intro he; subst he; simp [Char.isDigit] at h

theorem isDigit_ne_colon {c : Char} (h : c.isDigit = true) : c ≠ ':' := by
  intro he; subst he; simp [Char.isDigit] at h

theorem pyIntSigned_digits {cs : List Char} {n : Nat}
    (hd : ∀ c ∈ cs, c.isDigit = true) (h : charsNat? cs = some n) :
    pyIntSigned cs = some (n : Int) := by
  cases cs with
  | nil => simp [charsNat?] at h
  | cons c rest =>
    have hc := hd c (by simp)
    simp only [pyIntSigned]
    rw [if_neg (isDigit_ne_dash hc), if_neg (isDigit_ne_plus hc), h]

/-- Round-trip: Python `int(str(n))` recovers a natural `n`. -/
theorem pyIntChars?_natChars (n : Nat) :
    pyIntChars? (natChars n) = some (n : Int) := by
  unfold pyIntChars?
  rw [pyStrip_natChars]
  exact pyIntSigned_digits (natChars_all_digit n) (charsNat?_natChars n)

/-- Round-trip: Python `int(str(i))` recovers any integer `i`. -/
theorem pyIntChars?_intChars (i : Int) :
    pyIntChars? (intChars i) = some i := by
  cases i with
  | ofNat n => exact pyIntChars?_natChars n
  | negSucc n =>
    unfold pyIntChars? intChars
    have hall : ∀ c ∈ '-' :: natChars (n + 1), isSpaceChar c = false := by
      intro c hc
      rcases List.mem_cons.1 hc with h1 | h2
      · subst h1; decide
      · exact isDigit_not_space (natChars_all_digit (n + 1) c h2)
    rw [pyStrip_of_no_space hall]
    simp only [pyIntSigned]
    rw [if_pos trivial, charsNat?_natChars]
    show some (-((n + 1 : Nat) : Int)) = some (Int.negSucc n)
    congr 1

theorem beginsWith_append (p s : List Char) : beginsWith p (p ++ s) = true := by
  induction p with
  | nil => rfl
  | cons c ps ih => simp [beginsWith, ih]

theorem splitOnChar_no_sep {sep : Char} {cs : List Char}
    (h : ∀ c ∈ cs, c ≠ sep) : splitOnChar sep cs = [cs] := by
  induction cs with
  | nil => rfl
  | cons c rest ih =>
    have hrest := ih (fun x hx => h x (by simp [hx]))
    simp only [splitOnChar, hrest]
    rw [if_neg (h c (by simp))]
    simp

theorem splitOnChar_append_sep {sep : Char} {xs : List Char} (ys : List Char)
    (h : ∀ c ∈ xs, c ≠ sep) :
    splitOnChar sep (xs ++ sep :: ys) = xs :: splitOnChar sep ys := by
  induction xs with
  | nil => simp [splitOnChar]
  | cons c rest ih =>
    have hrest := ih (fun x hx => h x (by simp [hx]))
    simp only [List.cons_append, splitOnChar, hrest]
    rw [if_neg (h c (by simp))]
    simp [hrest]

-- Helper lemmas about the supervisor model.

theorem intChars_natCast (n : Nat) : intChars (n : Int) = natChars n := rfl

/-- The worker's readiness message `READY:<P>` is classified as a
readiness message carrying port `P` by the supervisor's drain logic. -/
theorem handleMessage_ready (P : Nat) :
    handleMessage (.str (readyTag ++ natChars P)) = .ready (P : Int) := by
  have hne : readyTag ++ natChars P ≠ [] := by simp [readyTag, readyWord]
  have hbw : beginsWith readyTag (readyTag ++ natChars P) = true :=
    beginsWith_append _ _
  have hfree : ∀ c ∈ readyWord, c ≠ ':' := by decide
  have hfree2 : ∀ c ∈ natChars P, c ≠ ':' :=
    fun c hc => isDigit_ne_colon (natChars_all_digit P c hc)
  have hsplit : splitOnChar ':' (readyTag ++ natChars P) = [readyWord, natChars P] := by
    have h1 : readyTag ++ natChars P = readyWord ++ ':' :: natChars P := by
      simp [readyTag]
    rw [h1, splitOnChar_append_sep _ hfree, splitOnChar_no_sep hfree2]
  simp only [handleMessage]
  rw [if_pos ⟨hne, hbw⟩, hsplit]
  simp only [List.get?]
  rw [pyIntChars?_natChars]

theorem runTicks_timer_none {t : AppState} (ht : t.monitorTimer = none) :
    ∀ n, runTicks t n = t := by
  intro n
  induction n with
  | zero => rfl
  | succ n ihn =>
    unfold runTicks
    rw [show tick t = (t, []) from by simp [tick, ht]]
    exact ihn

theorem shutdown_post (s : AppState) (env : ShutdownEnv) :
    (shutdown s env).1.serverProcess = none ∧
    (shutdown s env).1.monitorTimer = none := by
  obtain ⟨proc, q, o, timer, qid, nqid, pend⟩ := s
  cases proc with
  | none => exact ⟨rfl, rfl⟩
  | some p => cases hp : p.alive <;> simp [shutdown, hp]

theorem shutdown_noop {t : AppState} (env : ShutdownEnv)
    (hp : t.serverProcess = none) (ht : t.monitorTimer = none) :
    shutdown t env = (t, []) := by
  obtain ⟨proc, q, o, timer, qid, nqid, pend⟩ := t
  simp only at hp ht
  subst hp ht
  rfl

theorem load_kolibri_serverProcess (s : AppState) (port : Int) :
    (load_kolibri s port).1.serverProcess = s.serverProcess := by
  simp only [load_kolibri]
  split <;> rfl

theorem drainQueueStep_serverProcess (s : AppState) :
    (drainQueueStep s).1.serverProcess = s.serverProcess := by
  obtain ⟨proc, q, o, timer, qid, nqid, pend⟩ := s
  cases o with
  | some o => rfl
  | none =>
    cases q with
    | nil => rfl
    | cons m rest =>
      cases hm : handleMessage m with
      | ready port =>
        simp only [drainQueueStep, hm]
        split <;> rfl
      | parseError => simp [drainQueueStep, hm]
      | unexpected => simp [drainQueueStep, hm]

theorem appInv_of_alive {s : AppState} {p : Proc} (hp : s.serverProcess = some p)
    (ha : p.alive = true) (hpend : s.pendingCalls = []) : AppInv s := by
  refine ⟨fun _ => by simp [hp], fun _ => by simp [hp], hpend, ?_⟩
  intro p2 heq hd
  rw [hp] at heq
  injection heq with heq2
  subst heq2
  rw [ha] at hd
  exact absurd hd (by simp)

theorem appInv_of_cleared {s : AppState} (hp : s.serverProcess = none)
    (ho : s.kolibriOrigin = none) (ht : s.monitorTimer = none)
    (hpend : s.pendingCalls = []) : AppInv s := by
  refine ⟨?_, ?_, hpend, ?_⟩
  · intro hh; rw [ho] at hh; simp at hh
  · intro hh; rw [ht] at hh; simp at hh
  · intro p heq; rw [hp] at heq; simp at heq

theorem appInv_initFields : AppInv initFields := by
  refine ⟨?_, ?_, rfl, ?_⟩
  · intro hh; simp [initFields] at hh
  · intro hh; simp [initFields] at hh
  · intro p heq; simp [initFields] at heq

theorem tick_appInv {s : AppState} (h : AppInv s) : AppInv (tick s).1 := by
  obtain ⟨proc, q, o, timer, qid, nqid, pend⟩ := s
  obtain ⟨h1, h2, h3, h4⟩ := h
  dsimp only at h1 h2 h3 h4
  subst h3
  cases timer with
  | none =>
    rw [show tick (AppState.mk proc q o none qid nqid []) =
        (AppState.mk proc q o none qid nqid [], []) from by simp [tick]]
    exact ⟨h1, h2, rfl, h4⟩
  | some i =>
    have hproc : proc.isSome = true := h2 (by simp)
    cases proc with
    | none => simp at hproc
    | some p =>
      cases hp : p.alive with
      | true =>
        cases o with
        | some orig =>
          rw [show tick (AppState.mk (some p) q (some orig) (some i) qid nqid []) =
              (AppState.mk (some p) q (some orig) (some i) qid nqid [], []) from by
            simp [tick, check_server_status, drainQueueStep, livenessStep,
              runPendingCalls, hp]]
          exact appInv_of_alive rfl hp rfl
        | none =>
          cases q with
          | nil =>
            rw [show tick (AppState.mk (some p) [] none (some i) qid nqid []) =
                (AppState.mk (some p) [] none (some i) qid nqid [], []) from by
              simp [tick, check_server_status, drainQueueStep, livenessStep,
                runPendingCalls, hp]]
            exact appInv_of_alive rfl hp rfl
          | cons m rest =>
            cases hm : handleMessage m with
            | ready port =>
              rw [show tick (AppState.mk (some p) (m :: rest) none (some i) qid nqid []) =
                  (AppState.mk (some p) rest
                    (some (localhostTag ++ intChars port))
                    (some SERVER_RUNNING_CHECK_INTERVAL) qid nqid [],
                   [.loadKolibri (localhostTag ++ intChars port)]) from by
                simp [tick, check_server_status, drainQueueStep, livenessStep,
                  runPendingCalls, load_kolibri, hm, hp]]
              exact appInv_of_alive rfl hp rfl
            | parseError =>
              rw [show tick (AppState.mk (some p) (m :: rest) none (some i) qid nqid []) =
                  (AppState.mk (some p) rest none (some i) qid nqid [],
                   [.parseErrorLogged]) from by
                simp [tick, check_server_status, drainQueueStep, livenessStep,
                  runPendingCalls, hm, hp]]
              exact appInv_of_alive rfl hp rfl
            | unexpected =>
              rw [show tick (AppState.mk (some p) (m :: rest) none (some i) qid nqid []) =
                  (AppState.mk (some p) rest none (some i) qid nqid [],
                   [.unexpectedMessageLogged]) from by
                simp [tick, check_server_status, drainQueueStep, livenessStep,
                  runPendingCalls, hm, hp]]
              exact appInv_of_alive rfl hp rfl
      | false =>
        have hdis := h4 p rfl hp
        cases o with
        | some orig =>
          rw [show tick (AppState.mk (some p) q (some orig) (some i) qid nqid []) =
              (AppState.mk none q none none qid nqid [],
               [.unexpectedExitLogged p.exitcode]) from by
            simp [tick, check_server_status, drainQueueStep, livenessStep,
              runPendingCalls, hp]]
          exact appInv_of_cleared rfl rfl rfl rfl
        | none =>
          have hnr : noReadyQueued q = true := by
            rcases hdis with hh | hh
            · simp at hh
            · exact hh
          cases q with
          | nil =>
            rw [show tick (AppState.mk (some p) [] none (some i) qid nqid []) =
                (AppState.mk none [] none none qid nqid [],
                 [.startupFailureDialog p.exitcode]) from by
              simp [tick, check_server_status, drainQueueStep, livenessStep,
                runPendingCalls, hp]]
            exact appInv_of_cleared rfl rfl rfl rfl
          | cons m rest =>
            have hmr : (handleMessage m).isReadyPort = false := by
              simp [noReadyQueued] at hnr
              exact hnr.1
            cases hm : handleMessage m with
            | ready port =>
              rw [hm] at hmr
              simp [DrainResult.isReadyPort] at hmr
            | parseError =>
              rw [show tick (AppState.mk (some p) (m :: rest) none (some i) qid nqid []) =
                  (AppState.mk none rest none none qid nqid [],
                   [.parseErrorLogged, .startupFailureDialog p.exitcode]) from by
                simp [tick, check_server_status, drainQueueStep, livenessStep,
                  runPendingCalls, hm, hp]]
              exact appInv_of_cleared rfl rfl rfl rfl
            | unexpected =>
              rw [show tick (AppState.mk (some p) (m :: rest) none (some i) qid nqid []) =
                  (AppState.mk none rest none none qid nqid [],
                   [.unexpectedMessageLogged, .startupFailureDialog p.exitcode]) from by
                simp [tick, check_server_status, drainQueueStep, livenessStep,
                  runPendingCalls, hm, hp]]
              exact appInv_of_cleared rfl rfl rfl rfl

theorem step_appInv {s : AppState} {a : Act} (h : AppInv s)
    (hg : stepGuard s a = true) :
    AppInv (stepA s a).1 := by
  obtain ⟨h1, h2, h3, h4⟩ := h
  cases a with
  | start pid =>
    simp only [stepA]
    unfold start_server
    split
    · next p heq =>
      split
      · exact ⟨h1, h2, h3, h4⟩
      · exact @appInv_of_alive _ ⟨pid, true, 0⟩ (by simp) rfl (by simpa using h3)
    · exact @appInv_of_alive _ ⟨pid, true, 0⟩ (by simp) rfl (by simpa using h3)
  | sends m =>
    simp only [stepA]
    split
    · next p heq =>
      split
      · next halive =>
        exact appInv_of_alive (by simp [heq]) halive (by simpa using h3)
      · exact ⟨h1, h2, h3, h4⟩
    · exact ⟨h1, h2, h3, h4⟩
  | dies code =>
    simp only [stepGuard, Bool.or_eq_true] at hg
    simp only [stepA]
    split
    · next p heq =>
      split
      · refine ⟨fun _ => by simp, fun _ => by simp, by simpa using h3, ?_⟩
        intro p2 heq2 hd2
        simpa using hg
      · exact ⟨h1, h2, h3, h4⟩
    · exact ⟨h1, h2, h3, h4⟩
  | tickT => exact tick_appInv ⟨h1, h2, h3, h4⟩
  | shutdownCall env => simp [stepGuard] at hg

theorem guardedRun_appInv {s : AppState} {acts : List Act} (h : AppInv s)
    (hg : guardedRun s acts = true) : AppInv (runState s acts) := by
  induction acts generalizing s with
  | nil => exact h
  | cons a rest ih =>
    simp only [guardedRun, Bool.and_eq_true] at hg
    unfold runState
    exact ih (step_appInv h hg.1) hg.2

theorem appInv_originReady {s : AppState} (h : AppInv s) :
    originReadyInvariant s = true := by
  obtain ⟨h1, h2, h3, h4⟩ := h
  unfold originReadyInvariant readyStateB
  cases ho : s.kolibriOrigin.isSome with
  | false => simp
  | true => simp [h1 ho]

-- Claim C1.

/-- C1 (counterexample): two reachable violations of the claimed iff
invariant.  First, after `start()`, readiness on port 8080 and a
`shutdown()` whose worker exits within the grace period, the cached
origin is still `http://localhost:8080` while the worker handle is gone:
`shutdown()` never resets the origin.  Second, with no `shutdown()` at
all: the worker sends `READY:8080` and dies before the next tick; that
tick drains the message — which only defers `load_kolibri` via
`wx.CallAfter` — then observes the death with the origin still uncached,
shows the startup-failure dialog and clears origin, handle and timer;
after the handler returns, the deferred `load_kolibri` runs and caches
the origin with no worker handle left.  Both final states have a
non-absent origin outside `READY`. -/
theorem c1_counterexample :
    ((runState initFields c1acts).kolibriOrigin
        = some (localhostTag ++ natChars 8080)
     ∧ (runState initFields c1acts).serverProcess = none
     ∧ originReadyInvariant (runState initFields c1acts) = false)
    ∧ ((∀ a ∈ c1raceActs, a.isShutdownCall = false)
       ∧ Event.startupFailureDialog 1 ∈ runEvents initFields c1raceActs
       ∧ Event.loadKolibri (localhostTag ++ natChars 8080)
           ∈ runEvents initFields c1raceActs
       ∧ (runState initFields c1raceActs).kolibriOrigin
           = some (localhostTag ++ natChars 8080)
       ∧ (runState initFields c1raceActs).serverProcess = none
       ∧ originReadyInvariant (runState initFields c1raceActs) = false) := by
  decide

/-- C1 (amended): the cached origin is non-absent if and only if the
supervisor is `READY` (origin cached while the worker handle is held) at
every state reachable through guarded runs: runs that never call
`shutdown()` and in which the worker dies only when the origin is
already cached or no readiness message of its is still waiting undrained
in the queue.  On such runs the worker-found-dead tick resets the origin
and the origin is set only on the transition into `READY`.  Outside the
guard the invariant fails, as the counterexample shows on both excluded
paths: `shutdown()` clears the handle but keeps the cached origin, and a
worker death racing its own readiness message makes the death-observing
tick first show the startup failure and clear everything, then cache the
origin through the deferred `load_kolibri`. -/
theorem c1_origin_iff_ready_guarded (acts : List Act)
    (hg : guardedRun initFields acts = true) :
    originReadyInvariant (runState initFields acts) = true :=
  appInv_originReady (guardedRun_appInv appInv_initFields hg)

theorem c1_origin_iff_ready_guarded_witness :
    guardedRun initFields (startActs 8080 ++ [.dies 3, .tickT]) = true
    ∧ originReadyInvariant
        (runState initFields (startActs 8080 ++ [.dies 3, .tickT])) = true :=
  ⟨by decide, c1_origin_iff_ready_guarded _ (by decide)⟩

-- Claim C2.

/-- C2 (counterexample): worker 1 is spawned and handed channel 0, dies,
its death is observed on a tick, and a second `start_server` call spawns
worker 2 — handing it the same channel 0 that the exited worker 1 held;
no second queue is ever created (`nextQueueId` is still 1).  This refutes
"a fresh Readiness Channel is created for each spawning `start()` call". -/
theorem c2_counterexample :
    runEvents initFields c2acts
      = [.spawned 1 0, .startupFailureDialog 1, .spawned 2 0]
    ∧ (runState initFields c2acts).nextQueueId = 1 := by decide

/-- C2 (amended): the readiness channel is created exactly once, in
`OnInit` (before the first `start_server` call); `start_server` itself
never creates a queue — it leaves the channel bookkeeping untouched, and
a spawn hands the worker the app's existing channel. -/
theorem c2_channel_created_once (s : AppState) (pid : Nat) :
    initFields.nextQueueId = 1
    ∧ (start_server s pid).1.queueId = s.queueId
    ∧ (start_server s pid).1.nextQueueId = s.nextQueueId
    ∧ ((start_server s pid).2 = []
       ∨ (start_server s pid).2 = [.spawned pid s.queueId]) := by
  obtain ⟨proc, q, o, timer, qid, nqid, pend⟩ := s
  refine ⟨rfl, ?_, ?_, ?_⟩ <;>
  · cases proc with
    | none => simp [start_server]
    | some p => cases hp : p.alive <;> simp [start_server, hp]

-- Claim C3.

/-- C3: if on a monitor tick the worker is found dead (any exit code)
while no readiness message has been drained (no origin cached, queue
empty), the tick reports that exit code through the startup-failure
dialog, stops the monitor timer, and clears the worker handle; the
supervisor never reaches `READY` for this worker: with the monitor
stopped, every later tick leaves the state unchanged and the origin
absent. -/
theorem c3_exit_before_ready_fails (s : AppState) (p : Proc) (i n : Nat)
    (hq : s.readyQueue = []) (ho : s.kolibriOrigin = none)
    (hp : s.serverProcess = some p) (hd : p.alive = false)
    (ht : s.monitorTimer = some i) (hpend : s.pendingCalls = []) :
    tick s = ({ s with serverProcess := none, kolibriOrigin := none,
                       monitorTimer := none },
              [.startupFailureDialog p.exitcode])
    ∧ runTicks (tick s).1 n = (tick s).1
    ∧ (runTicks (tick s).1 n).kolibriOrigin = none := by
  obtain ⟨proc, q, o, timer, qid, nqid, pend⟩ := s
  dsimp only at hq ho hp ht hpend
  subst hq ho hp ht hpend
  have h1 : tick (AppState.mk (some p) [] none (some i) qid nqid [])
      = (AppState.mk none [] none none qid nqid [],
         [.startupFailureDialog p.exitcode]) := by
    simp [tick, check_server_status, drainQueueStep, livenessStep,
      runPendingCalls, hd]
  refine ⟨h1, ?_, ?_⟩
  · rw [h1]
    exact runTicks_timer_none rfl n
  · rw [h1, runTicks_timer_none rfl n]

theorem c3_exit_before_ready_fails_witness :
    deadSt.readyQueue = [] ∧ deadSt.kolibriOrigin = none
    ∧ deadSt.serverProcess = some ⟨1, false, 7⟩
    ∧ (Proc.mk 1 false 7).alive = false
    ∧ deadSt.monitorTimer = some SERVER_STARTUP_CHECK_INTERVAL
    ∧ deadSt.pendingCalls = []
    ∧ (tick deadSt = ({ deadSt with serverProcess := none, kolibriOrigin := none, monitorTimer := none }, [.startupFailureDialog 7])
       ∧ runTicks (tick deadSt).1 3 = (tick deadSt).1
       ∧ (runTicks (tick deadSt).1 3).kolibriOrigin = none) :=
  ⟨rfl, rfl, rfl, rfl, rfl, rfl,
   c3_exit_before_ready_fails deadSt ⟨1, false, 7⟩ SERVER_STARTUP_CHECK_INTERVAL 3
     rfl rfl rfl rfl rfl rfl⟩

-- Claim C4.

/-- C4: if the worker is found dead on a tick after the supervisor became
`READY` (an origin is cached), the tick clears the cached origin and the
worker handle, stops the monitor timer, and reports through the
unexpected-exit log line — the event list contains no startup-failure
dialog. -/
theorem c4_exit_after_ready_terminates (s : AppState) (p : Proc)
    (o : List Char) (i : Nat)
    (ho : s.kolibriOrigin = some o) (hp : s.serverProcess = some p)
    (hd : p.alive = false) (ht : s.monitorTimer = some i)
    (hpend : s.pendingCalls = []) :
    tick s = ({ s with serverProcess := none, kolibriOrigin := none,
                       monitorTimer := none },
              [.unexpectedExitLogged p.exitcode]) := by
  obtain ⟨proc, q, oo, timer, qid, nqid, pend⟩ := s
  dsimp only at ho hp ht hpend
  subst ho hp ht hpend
  simp [tick, check_server_status, drainQueueStep, livenessStep,
    runPendingCalls, hd]

theorem c4_exit_after_ready_terminates_witness :
    readySt.kolibriOrigin = some (localhostTag ++ natChars 8080)
    ∧ readySt.serverProcess = some ⟨1, false, 9⟩
    ∧ (Proc.mk 1 false 9).alive = false
    ∧ readySt.monitorTimer = some SERVER_RUNNING_CHECK_INTERVAL
    ∧ readySt.pendingCalls = []
    ∧ tick readySt = ({ readySt with serverProcess := none, kolibriOrigin := none, monitorTimer := none }, [.unexpectedExitLogged 9]) :=
  ⟨rfl, rfl, rfl, rfl, rfl,
   c4_exit_after_ready_terminates readySt ⟨1, false, 9⟩
     (localhostTag ++ natChars 8080) SERVER_RUNNING_CHECK_INTERVAL
     rfl rfl rfl rfl rfl⟩

-- Claim C5.

/-- C5: a `shutdown()` call with a live worker first requests graceful
termination (`terminate()` is the first signal), then waits bounded by
the 5-second grace period; `kill()` is issued exactly when the process is
still alive after that wait and is followed by a wait bounded by 2
seconds; if the process survives even the kill, the failure is logged; in
every branch control returns with the handle resources released (the run
ends by closing the process object) and the worker reference cleared. -/
theorem c5_shutdown_escalation (s : AppState) (env : ShutdownEnv) (p : Proc)
    (hp : s.serverProcess = some p) (ha : p.alive = true) :
    (shutdown s env).1 = { s with serverProcess := none, monitorTimer := none }
    ∧ (shutdown s env).2.head? = some (.sigTerminate p.pid)
    ∧ (shutdown s env).2.get? 1 = some (.joinWait SERVER_SHUTDOWN_TIMEOUT)
    ∧ (Event.sigKill p.pid ∈ (shutdown s env).2 ↔ env.exitsInGrace = false)
    ∧ (env.exitsInGrace = false →
        (shutdown s env).2.get? 2 = some (.sigKill p.pid))
    ∧ (Event.joinWait 2 ∈ (shutdown s env).2 ↔ env.exitsInGrace = false)
    ∧ (Event.killFailedLogged p.pid ∈ (shutdown s env).2 ↔
        (env.exitsInGrace = false ∧ env.exitsInKill = false))
    ∧ (shutdown s env).2.getLast? = some (.processClosed p.pid) := by
  obtain ⟨proc, q, o, timer, qid, nqid, pend⟩ := s
  dsimp only at hp
  subst hp
  obtain ⟨g, k⟩ := env
  cases g <;> cases k <;>
    simp [shutdown, ha, SERVER_SHUTDOWN_TIMEOUT]

theorem c5_shutdown_escalation_witness :
    aliveSt.serverProcess = some ⟨1, true, 0⟩
    ∧ (Proc.mk 1 true 0).alive = true
    ∧ ((shutdown aliveSt ⟨false, false⟩).1 = { aliveSt with serverProcess := none, monitorTimer := none }
       ∧ (shutdown aliveSt ⟨false, false⟩).2.head? = some (.sigTerminate 1)
       ∧ (shutdown aliveSt ⟨false, false⟩).2.get? 1 = some (.joinWait SERVER_SHUTDOWN_TIMEOUT)
       ∧ (Event.sigKill 1 ∈ (shutdown aliveSt ⟨false, false⟩).2 ↔
           (ShutdownEnv.mk false false).exitsInGrace = false)
       ∧ ((ShutdownEnv.mk false false).exitsInGrace = false →
           (shutdown aliveSt ⟨false, false⟩).2.get? 2 = some (.sigKill 1))
       ∧ (Event.joinWait 2 ∈ (shutdown aliveSt ⟨false, false⟩).2 ↔
           (ShutdownEnv.mk false false).exitsInGrace = false)
       ∧ (Event.killFailedLogged 1 ∈ (shutdown aliveSt ⟨false, false⟩).2 ↔
           ((ShutdownEnv.mk false false).exitsInGrace = false ∧
            (ShutdownEnv.mk false false).exitsInKill = false))
       ∧ (shutdown aliveSt ⟨false, false⟩).2.getLast? = some (.processClosed 1)) :=
  ⟨rfl, rfl, c5_shutdown_escalation aliveSt ⟨false, false⟩ ⟨1, true, 0⟩ rfl rfl⟩

-- Claim C6.

/-- C6: `shutdown()` is idempotent: a second call immediately after any
`shutdown()` sends no process signals and leaves the state unchanged,
and calling it in any state with no worker reference and no running
monitor timer (never started, or the worker already observed terminated
or failed) is a no-op producing no events at all. -/
theorem c6_shutdown_idempotent (s t : AppState) (e1 e2 e3 : ShutdownEnv)
    (hp : t.serverProcess = none) (ht : t.monitorTimer = none) :
    shutdown (shutdown s e1).1 e2 = ((shutdown s e1).1, [])
    ∧ shutdown t e3 = (t, []) := by
  constructor
  · obtain ⟨h1, h2⟩ := shutdown_post s e1
    exact shutdown_noop e2 h1 h2
  · exact shutdown_noop e3 hp ht

theorem c6_shutdown_idempotent_witness :
    initFields.serverProcess = none ∧ initFields.monitorTimer = none
    ∧ (shutdown (shutdown aliveSt ⟨true, true⟩).1 ⟨true, true⟩
         = ((shutdown aliveSt ⟨true, true⟩).1, [])
       ∧ shutdown initFields ⟨true, true⟩ = (initFields, [])) :=
  ⟨rfl, rfl,
   c6_shutdown_idempotent aliveSt initFields ⟨true, true⟩ ⟨true, true⟩
     ⟨true, true⟩ rfl rfl⟩

-- Claim C7.

/-- C7 (counterexample): after `start()` → readiness message with port
8080 → tick, the supervisor is `READY`; a further message `READY:9999`
arriving on the channel followed by a tick produces no events at all — in
particular no log line — and the extra message is still sitting undrained
in the queue.  It is not "logged": once an origin is cached,
`check_server_status` never reads the queue again. -/
theorem c7_counterexample :
    runEvents initFields c7acts
      = [.spawned 1 0, .loadKolibri (localhostTag ++ natChars 8080)]
    ∧ (runState initFields c7acts).readyQueue = [.str (readyTag ++ natChars 9999)]
    ∧ (runState initFields c7acts).kolibriOrigin
        = some (localhostTag ++ natChars 8080) := by decide

/-- C7 (amended): for every port `P`, the run `start()` → readiness
message with port `P` → tick reaches `READY` with origin
`http://localhost:P`, reported exactly once (the run's only
notification); any additional message arriving after `READY` is left
undrained on the channel and not acted upon: a subsequent tick changes
nothing except that the extra message stays queued (state and origin
unchanged) and emits no events, so the extra message is not logged. -/
theorem c7_ready_reported_once (P : Nat) (extra : QMsg) :
    runState initFields (startActs P) = readyAfter P
    ∧ runEvents initFields (startActs P)
        = [.spawned 1 0, .loadKolibri (localhostTag ++ natChars P)]
    ∧ runState initFields (startActs P ++ [.sends extra, .tickT])
        = { readyAfter P with readyQueue := [extra] }
    ∧ runEvents initFields (startActs P ++ [.sends extra, .tickT])
        = [.spawned 1 0, .loadKolibri (localhostTag ++ natChars P)] := by
  have hm := handleMessage_ready P
  refine ⟨?_, ?_, ?_, ?_⟩ <;>
    simp [startActs, runState, runEvents, stepA, start_server, tick,
      check_server_status, drainQueueStep, livenessStep, runPendingCalls,
      load_kolibri, hm, intChars_natCast, readyAfter, initFields,
      SERVER_STARTUP_CHECK_INTERVAL, SERVER_RUNNING_CHECK_INTERVAL]

-- Claim C8.

/-- C8: a tick that drains a malformed or unexpected message (wrong kind,
non-string, or a `READY:` message whose port part is not an integer) logs
it and discards it: the state is unchanged apart from the message leaving
the queue — the origin stays uncached, the worker handle and the monitor
timer are untouched — and the tick emits exactly one log event, so the
monitor loop survives and the next tick proceeds normally. -/
theorem c8_malformed_message_ignored (s : AppState) (m : QMsg)
    (rest : List QMsg) (p : Proc) (i : Nat)
    (ho : s.kolibriOrigin = none) (hq : s.readyQueue = m :: rest)
    (hm : (handleMessage m).isReadyPort = false)
    (hp : s.serverProcess = some p) (ha : p.alive = true)
    (ht : s.monitorTimer = some i) (hpend : s.pendingCalls = []) :
    (tick s).1 = { s with readyQueue := rest }
    ∧ ((tick s).2 = [.parseErrorLogged]
       ∨ (tick s).2 = [.unexpectedMessageLogged]) := by
  obtain ⟨proc, q, o, timer, qid, nqid, pend⟩ := s
  dsimp only at ho hq hp ht hpend
  subst ho hq hp ht hpend
  cases hr : handleMessage m with
  | ready port =>
    rw [hr] at hm
    simp [DrainResult.isReadyPort] at hm
  | parseError =>
    constructor
    · simp [tick, check_server_status, drainQueueStep, livenessStep,
        runPendingCalls, hr, ha]
    · left
      simp [tick, check_server_status, drainQueueStep, livenessStep,
        runPendingCalls, hr, ha]
  | unexpected =>
    constructor
    · simp [tick, check_server_status, drainQueueStep, livenessStep,
        runPendingCalls, hr, ha]
    · right
      simp [tick, check_server_status, drainQueueStep, livenessStep,
        runPendingCalls, hr, ha]

theorem c8_malformed_message_ignored_witness :
    malformedSt.kolibriOrigin = none
    ∧ malformedSt.readyQueue = [.str (readyTag ++ ['x'])]
    ∧ (handleMessage (.str (readyTag ++ ['x']))).isReadyPort = false
    ∧ malformedSt.serverProcess = some ⟨1, true, 0⟩
    ∧ (Proc.mk 1 true 0).alive = true
    ∧ malformedSt.monitorTimer = some SERVER_STARTUP_CHECK_INTERVAL
    ∧ malformedSt.pendingCalls = []
    ∧ ((tick malformedSt).1 = { malformedSt with readyQueue := [] }
       ∧ ((tick malformedSt).2 = [.parseErrorLogged]
          ∨ (tick malformedSt).2 = [.unexpectedMessageLogged])) :=
  ⟨rfl, rfl, by decide, rfl, rfl, rfl, rfl,
   c8_malformed_message_ignored malformedSt (.str (readyTag ++ ['x'])) []
     ⟨1, true, 0⟩ SERVER_STARTUP_CHECK_INTERVAL rfl rfl (by decide) rfl rfl rfl
     rfl⟩

-- Claim C9.

/-- C9: the worker resolves each listening port as follows: an
environment override that is present and parseable as an integer is used,
with `0` passed through unchanged as a valid auto-select request; an
override that is present but not parseable falls back to the hosted
application's configured default; an absent override uses the default. -/
theorem c9_port_resolution (s bad : List Char) (d n : Int)
    (hs : pyIntChars? s = some n) (hb : pyIntChars? bad = none) :
    resolvePort (some s) d = n
    ∧ resolvePort (some bad) d = d
    ∧ resolvePort none d = d
    ∧ resolvePort (some ['0']) d = 0 := by
  refine ⟨?_, ?_, ?_, ?_⟩
  · simp [resolvePort, hs]
  · simp [resolvePort, hb]
  · simp [resolvePort, pyIntChars?_intChars]
  · rfl

theorem c9_port_resolution_witness :
    pyIntChars? (natChars 41237) = some 41237
    ∧ pyIntChars? ['p', 'o', 'r', 't'] = none
    ∧ (resolvePort (some (natChars 41237)) 8080 = 41237
       ∧ resolvePort (some ['p', 'o', 'r', 't']) 8080 = 8080
       ∧ resolvePort none 8080 = 8080
       ∧ resolvePort (some ['0']) 8080 = 0) :=
  ⟨by decide, by decide,
   c9_port_resolution (natChars 41237) ['p', 'o', 'r', 't'] 8080 41237
     (by decide) (by decide)⟩

-- Claim C10.

/-- C10 (counterexample): with no readiness channel supplied, the worker's
serving callback writes the line `KOLIBRI_SERVER_READY:8080` to standard
output — not the claimed `READY:8080`. -/
theorem c10_counterexample :
    on_serving_callback false 8080 = [.stdoutLine (fallbackTag ++ natChars 8080)]
    ∧ fallbackTag ++ natChars 8080 ≠ readyTag ++ natChars 8080 := by decide

/-- C10 (amended): for every bound port, the serving callback pushes
exactly one message `READY:<port>` onto the channel when one was
supplied — a message the supervisor's drain logic classifies as the
readiness message carrying that port — and when no channel was supplied
it writes the line `KOLIBRI_SERVER_READY:<port>` (not `READY:<port>`) to
standard output instead. -/
theorem c10_serving_callback (p : Nat) :
    on_serving_callback true p = [.queuePut (readyTag ++ natChars p)]
    ∧ handleMessage (.str (readyTag ++ natChars p)) = .ready (p : Int)
    ∧ on_serving_callback false p = [.stdoutLine (fallbackTag ++ natChars p)] :=
  ⟨rfl, handleMessage_ready p, rfl⟩
